import Mathlib

/-!
Shallow embedding of `narwhal.py`, a minimal pre-fork HTTP server.
System calls (socket operations, fork, kill, select) are modelled as
explicit events; results of fallible calls are supplied by oracles.
-/

namespace Narwhal

/-- Linux errno value for EAGAIN, the would-block error class. -/
def EAGAIN : Nat := 11

/-- POSIX signal number of SIGTERM. -/
def SIGTERM : Nat := 15

/-- Linux value of IPPROTO_TCP. -/
def IPPROTO_TCP : Nat := 6

/-- Linux value of TCP_NODELAY. -/
def TCP_NODELAY : Nat := 1

/-- Linux value of SOL_SOCKET. -/
def SOL_SOCKET : Nat := 1

/-- Linux value of SO_REUSEADDR. -/
def SO_REUSEADDR : Nat := 2

/-- A Python `socket.error` carries an errno. -/
structure SocketError where
  errno : Nat
deriving DecidableEq, Repr

/-- `response_text` in `_handle_request`: the fixed HTML body. -/
def response_text : String := "<html><body>Hello!</body></html>"

/-- `response` in `_handle_request`: the full HTTP response, with the
Content-Length header computed from `len(response_text)`. -/
def response : String :=
  "HTTP/1.1 200 OK\r\n" ++
  ("Content-Length: " ++ toString response_text.length ++ "\r\n") ++
  "Content-Type: text/html\r\n" ++
  "Connection: close\r\n" ++
  "\r\n" ++
  response_text

/-- The mutable fields of an `HTTPServer` instance. -/
structure ServerState where
  desired_worker_count : Nat
  port : Nat
  workers : List Nat
  listener : Nat
deriving DecidableEq, Repr

/-- Operations `_handle_request` performs on an accepted connection. -/
inductive ConnEvent
  | setBlocking (b : Bool)
  | recv (maxBytes : Nat)
  | send (data : String)
  | close
deriving DecidableEq, Repr

/-- Oracle results for the fallible calls made on one accepted connection:
what `conn.recv(512)` returns (bytes modelled as a string) and whether
`conn.sendall` succeeds. -/
structure ConnOracle where
  recvResult : Except SocketError String
  sendResult : Except SocketError Unit

/-- `HTTPServer._handle_request`: set the connection to blocking mode,
read up to 512 bytes, send the fixed response, close. Returns the state of
the server instance, the trace of connection operations attempted, and
whether a `socket.error` escaped (the method mutates no field of `self`). -/
def handle_request (s : ServerState) (o : ConnOracle) :
    ServerState × List ConnEvent × Except SocketError Unit :=
  match o.recvResult with
  | .error e => (s, [.setBlocking true, .recv 512], .error e)
  | .ok _data =>
    match o.sendResult with
    | .error e => (s, [.setBlocking true, .recv 512, .send response], .error e)
    | .ok _ => (s, [.setBlocking true, .recv 512, .send response, .close], .ok ())

/-- Payload of a send event, if any. -/
def sendData : ConnEvent → Option String
  | .send d => some d
  | _ => none

/-- What one pass through the worker loop's `try` block does next. -/
inductive StepOutcome
  | backToWaiting
  | fatal (e : SocketError)
deriving DecidableEq, Repr

/-- Oracle for the `accept()` call of one worker-loop iteration: either it
raises a `socket.error`, or it yields a connection together with the oracle
for the calls made on that connection. -/
structure AcceptOracle where
  acceptResult : Except SocketError ConnOracle

/-- The `try`/`except` body of `_start_worker_loop`'s child loop: attempt
`accept()`, then `_handle_request`; a `socket.error` whose errno differs
from EAGAIN is re-raised, any EAGAIN error is swallowed. -/
def worker_try_step (s : ServerState) (o : AcceptOracle) :
    ServerState × List ConnEvent × StepOutcome :=
  match o.acceptResult with
  | .error e =>
    if e.errno ≠ EAGAIN then (s, [], .fatal e) else (s, [], .backToWaiting)
  | .ok co =>
    match handle_request s co with
    | (s', tr, .ok _) => (s', tr, .backToWaiting)
    | (s', tr, .error e) =>
      if e.errno ≠ EAGAIN then (s', tr, .fatal e) else (s', tr, .backToWaiting)

/-- One call of `select.select([self._listener], [], [], 1.0)` is modelled
by its timeout (in seconds) and, through the oracle, whether the ready list
`socks[0]` came back non-empty. -/
structure SelectCall where
  timeout_secs : Nat
deriving DecidableEq, Repr

/-- The inner `while True` wait loop of the worker: given the sequence of
select outcomes the OS will produce (`true` = listener reported ready),
return the select calls issued and whether the loop broke out to `accept()`
within that sequence (`false` = still waiting when outcomes ran out). -/
def wait_loop : List Bool → List SelectCall × Bool
  | [] => ([], false)
  | ready :: rest =>
    if ready then ([⟨1⟩], true)
    else
      let (calls, broke) := wait_loop rest
      (⟨1⟩ :: calls, broke)

/-- One full iteration of the worker's outer `while True` loop: run the
wait loop; only once the listener was reported ready is the `try` block
with `accept()` entered. `none` means the worker is still waiting. -/
def worker_iteration (s : ServerState) (outs : List Bool) (o : AcceptOracle) :
    Option (ServerState × List ConnEvent × StepOutcome) :=
  if (wait_loop outs).2 then some (worker_try_step s o) else none

/-- Operations performed by the supervisor process. -/
inductive SupEvent
  | kill (pid : Nat) (sig : Nat)
  | waitpid (pid : Nat)
deriving DecidableEq, Repr

/-- `HTTPServer._kill_workers`: `os.kill(pid, signal.SIGTERM)` for every
tracked pid, in list order; the worker list itself is not modified. -/
def kill_workers (s : ServerState) : List SupEvent × ServerState :=
  (s.workers.map (fun pid => .kill pid SIGTERM), s)

/-- The two interruptions `run()` catches: `KeyboardInterrupt` (the
interrupt signal) and `SystemExit` (the explicit exit request). -/
inductive Shutdown
  | keyboardInterrupt
  | systemExit
deriving DecidableEq, Repr

/-- The `except` clauses of `HTTPServer.run`: on either interruption,
call `_kill_workers` and fall off the end of the method. The returned
`Bool` is `true` iff `run` returns (rather than continuing to loop). -/
def run_on_shutdown (s : ServerState) (sd : Shutdown) :
    List SupEvent × ServerState × Bool :=
  match sd with
  | .keyboardInterrupt =>
    let (evs, s') := kill_workers s
    (evs, s', true)
  | .systemExit =>
    let (evs, s') := kill_workers s
    (evs, s', true)

/-- One evaluation of the inner `while` condition of `run()`'s top-up
loop, with the pid a successful `os.fork` would return to the parent:
spawn (and append the child's pid) only when fewer workers than the
desired count are tracked. -/
def top_up_step (s : ServerState) (newPid : Nat) : ServerState :=
  if s.workers.length < s.desired_worker_count
  then { s with workers := s.workers ++ [newPid] }
  else s

/-- The full inner top-up loop `while len(self._workers) < self._desired_worker_count`,
with `pids k` the pid returned by the k-th successful fork: spawn one
worker per iteration until the tracked count reaches the target. -/
def top_up (ws : List Nat) (n : Nat) (pids : Nat → Nat) (k : Nat) : List Nat :=
  if h : ws.length < n then top_up (ws ++ [pids k]) n pids (k + 1) else ws
termination_by n - ws.length
decreasing_by simp; omega

/-- Operations `_create_socket` performs on the new listening socket. -/
inductive SockEvent
  | setblocking (b : Bool)
  | setsockopt (level : Nat) (optname : Nat) (value : Nat)
  | bindAddr (host : String) (port : Nat)
  | listenCall (backlog : Nat)
deriving DecidableEq, Repr

/-- Default `host` argument of `_create_socket`. -/
def default_host : String := "localhost"

/-- Default `port` of `_create_socket` and of `HTTPServer.__init__`. -/
def default_port : Nat := 8080

/-- Default `backlog` argument of `_create_socket`. -/
def default_backlog : Nat := 512

/-- `HTTPServer._create_socket`: make the socket non-blocking, set
TCP_NODELAY and SO_REUSEADDR, bind to (host, port), listen with the given
backlog. `bindResult` is the oracle for the `bind` call; a bind failure
propagates, so `listen` is never reached. On success the returned `Nat`
is the descriptor of the new listener. -/
def create_socket (host : String) (port : Nat) (backlog : Nat)
    (bindResult : Except SocketError Unit) (fd : Nat) :
    List SockEvent × Except SocketError Nat :=
  let pre : List SockEvent :=
    [.setblocking false,
     .setsockopt IPPROTO_TCP TCP_NODELAY 1,
     .setsockopt SOL_SOCKET SO_REUSEADDR 1]
  match bindResult with
  | .error e => (pre ++ [.bindAddr host port], .error e)
  | .ok _ => (pre ++ [.bindAddr host port, .listenCall backlog], .ok fd)

/-- `HTTPServer.__init__`: record the configuration, start with an empty
worker list, and create the listener via `_create_socket(port=self._port)`
(host and backlog take their defaults). A socket error from listener
creation propagates, so no server instance exists to run. -/
def server_init (worker_count : Nat) (port : Nat)
    (bindResult : Except SocketError Unit) (fd : Nat) :
    List SockEvent × Except SocketError ServerState :=
  let (evs, r) := create_socket default_host port default_backlog bindResult fd
  match r with
  | .error e => (evs, .error e)
  | .ok listener =>
    (evs, .ok { desired_worker_count := worker_count, port := port,
                workers := [], listener := listener })

/-- The response byte string asserted by the spec's "Response shape"
property, with its claimed `Content-Length: 34`. Stated from the spec's
words, to be compared against `response` computed from the source. -/
def spec_response : String :=
  "HTTP/1.1 200 OK\r\nContent-Length: 34\r\nContent-Type: text/html\r\nConnection: close\r\n\r\n<html><body>Hello!</body></html>"

/-- The response byte string actually produced by the source, with
`Content-Length: 32` matching the 32-byte body. -/
def actual_response : String :=
  "HTTP/1.1 200 OK\r\nContent-Length: 32\r\nContent-Type: text/html\r\nConnection: close\r\n\r\n<html><body>Hello!</body></html>"

/-- A sample server state used to instantiate universally quantified
theorems at a concrete point. -/
def sampleState : ServerState :=
  { desired_worker_count := 1, port := 8080, workers := [], listener := 3 }

/-- Length of the result of the top-up loop: it tops the worker list up
to the target count, and leaves it alone if already at or above it. -/
theorem top_up_length (ws : List Nat) (n : Nat) (pids : Nat → Nat) (k : Nat) :
    (top_up ws n pids k).length = max ws.length n := by
  rw [top_up]
  split
  · rw [top_up_length (ws ++ [pids k]) n pids (k + 1)]
    simp
    omega
  · simp
    omega
termination_by n - ws.length
decreasing_by simp; omega

/-- The top-up loop only appends to the worker list: the initial list is
an initial segment of the final one. -/
theorem top_up_extends (ws : List Nat) (n : Nat) (pids : Nat → Nat) (k : Nat) :
    ∃ t, top_up ws n pids k = ws ++ t := by
  rw [top_up]
  split
  · obtain ⟨t, ht⟩ := top_up_extends (ws ++ [pids k]) n pids (k + 1)
    exact ⟨pids k :: t, by rw [ht]; simp⟩
  · exact ⟨[], by simp⟩
termination_by n - ws.length
decreasing_by simp; omega

/-- The wait loop breaks out to `accept()` exactly when some select call
reported the listener ready. -/
theorem wait_loop_breaks_iff (outs : List Bool) :
    (wait_loop outs).2 = true ↔ true ∈ outs := by
  induction outs with
  | nil => simp [wait_loop]
  | cons b rest ih =>
    cases b <;> simp [wait_loop, ih]

/-- Every select call issued by the wait loop carries the 1-second timeout. -/
theorem wait_loop_timeouts (outs : List Bool) :
    ∀ c ∈ (wait_loop outs).1, c = ⟨1⟩ := by
  induction outs with
  | nil => simp [wait_loop]
  | cons b rest ih =>
    cases b
    · simpa [wait_loop] using ih
    · simp [wait_loop]

/-- Claim C1 counterexample: with the client sending no bytes, the data
`_handle_request` writes is not the spec's claimed byte string (whose
Content-Length reads 34), and the body's actual length is 32, not 34. -/
theorem C1_counterexample :
    (handle_request sampleState ⟨.ok "", .ok ()⟩).2.1.filterMap sendData ≠ [spec_response]
      ∧ response_text.length = 32 := by
  constructor
  · decide
  · decide

/-- Claim C1 (amended): for every sequence of input bytes returned by the
read (including the empty one and reads of clients that sent more than 512
bytes), `_handle_request` writes exactly one byte string, namely
`HTTP/1.1 200 OK\r\nContent-Length: 32\r\nContent-Type: text/html\r\nConnection: close\r\n\r\n<html><body>Hello!</body></html>`,
whose declared and actual body length is 32. -/
theorem C1_response_shape (s : ServerState) (data : String) :
    (handle_request s ⟨.ok data, .ok ()⟩).2.1.filterMap sendData = [response]
      ∧ response = actual_response
      ∧ response_text.length = 32 := by
  refine ⟨?_, by decide, by decide⟩
  simp [handle_request, sendData]

/-- Claim C2: on either interruption `run()` catches — the keyboard
interrupt or the explicit exit request — the supervisor sends SIGTERM to
every tracked worker pid, in order, performs no other operation (in
particular no wait on any child), and returns. -/
theorem C2_shutdown (s : ServerState) (sd : Shutdown) :
    run_on_shutdown s sd
      = (s.workers.map (fun pid => SupEvent.kill pid SIGTERM), s, true) := by
  cases sd <;> rfl

/-- Claim C3: in the worker loop, a `socket.error` raised by `accept()`
with errno EAGAIN is swallowed and the worker loops back to waiting, while
a `socket.error` with any other errno is re-raised and fatal. -/
theorem C3_accept_error (s : ServerState) (e : SocketError) :
    (e.errno = EAGAIN →
       worker_try_step s ⟨.error e⟩ = (s, [], .backToWaiting))
    ∧ (e.errno ≠ EAGAIN →
       worker_try_step s ⟨.error e⟩ = (s, [], .fatal e)) := by
  constructor
  · intro h
    simp [worker_try_step, h]
  · intro h
    simp [worker_try_step, h]

/-- Witness for C3 at errno EAGAIN (swallowed) and errno 2 (re-raised). -/
theorem C3_accept_error_witness :
    worker_try_step sampleState ⟨.error ⟨EAGAIN⟩⟩ = (sampleState, [], .backToWaiting)
      ∧ worker_try_step sampleState ⟨.error ⟨2⟩⟩ = (sampleState, [], .fatal ⟨2⟩) :=
  ⟨(C3_accept_error sampleState ⟨EAGAIN⟩).1 rfl,
   (C3_accept_error sampleState ⟨2⟩).2 (by decide)⟩

/-- Claim C4: the top-up check spawns exactly one worker (appending
exactly one pid) when the tracked count is below the target, spawns none
when at or above it, and the full top-up loop never pushes the tracked
count past the target when it starts at or below it. -/
theorem C4_top_up (s : ServerState) (p : Nat) (pids : Nat → Nat) (k : Nat) :
    (s.workers.length < s.desired_worker_count →
       (top_up_step s p).workers = s.workers ++ [p])
    ∧ (s.desired_worker_count ≤ s.workers.length →
       top_up_step s p = s)
    ∧ (s.workers.length ≤ s.desired_worker_count →
       (top_up s.workers s.desired_worker_count pids k).length
         ≤ s.desired_worker_count) := by
  refine ⟨fun h => ?_, fun h => ?_, fun h => ?_⟩
  · simp [top_up_step, h]
  · simp [top_up_step, Nat.not_lt.mpr h]
  · rw [top_up_length]
    omega

/-- Witness for C4 at a one-worker target: from an empty list one pid is
appended, at target nothing is spawned, and the loop ends at the target. -/
theorem C4_top_up_witness :
    (top_up_step sampleState 7).workers = [] ++ [7]
      ∧ top_up_step { sampleState with workers := [7] } 9
          = { sampleState with workers := [7] }
      ∧ (top_up sampleState.workers sampleState.desired_worker_count
           (fun _ => 7) 0).length ≤ sampleState.desired_worker_count :=
  ⟨(C4_top_up sampleState 7 (fun _ => 7) 0).1 (by decide),
   (C4_top_up { sampleState with workers := [7] } 9 (fun _ => 7) 0).2.1 (by decide),
   (C4_top_up sampleState 7 (fun _ => 7) 0).2.2 (by decide)⟩

/-- Claim C5: two connections handled by the same server instance receive
identical traffic regardless of what each client sent — both see exactly
the fixed response — and every field of the server state is unchanged by
each handling. -/
theorem C5_idempotent (s : ServerState) (d₁ d₂ : String) :
    (handle_request s ⟨.ok d₁, .ok ()⟩).2.1
        = (handle_request s ⟨.ok d₂, .ok ()⟩).2.1
      ∧ (handle_request s ⟨.ok d₁, .ok ()⟩).2.1.filterMap sendData = [response]
      ∧ (handle_request s ⟨.ok d₁, .ok ()⟩).1 = s
      ∧ (handle_request s ⟨.ok d₂, .ok ()⟩).1 = s := by
  refine ⟨rfl, ?_, rfl, rfl⟩
  simp [handle_request, sendData]

/-- Claim C6: on a successfully handled connection the operations are, in
order: switch to blocking mode, read at most 512 bytes, write the complete
fixed response, close; and for every oracle outcome the blocking-mode
switch is the first operation and the read the second, so the switch
always precedes the read. -/
theorem C6_handling_order (s : ServerState) (d : String) :
    (handle_request s ⟨.ok d, .ok ()⟩).2.1
        = [.setBlocking true, .recv 512, .send response, .close]
      ∧ ∀ o : ConnOracle,
          (handle_request s o).2.1.take 2 = [.setBlocking true, .recv 512] := by
  refine ⟨rfl, fun o => ?_⟩
  obtain ⟨r, w⟩ := o
  cases r <;> cases w <;> rfl

/-- Claim C7: a pid is appended exactly when a fork succeeds with the
count below target; the supervisor's loop only ever extends the tracked
collection (never shrinks it); and the shutdown path `_kill_workers`
leaves the collection unchanged. -/
theorem C7_worker_records (s : ServerState) (p : Nat) (ws : List Nat)
    (n : Nat) (pids : Nat → Nat) (k : Nat) :
    (s.workers.length < s.desired_worker_count →
       (top_up_step s p).workers = s.workers ++ [p])
    ∧ (s.desired_worker_count ≤ s.workers.length →
       (top_up_step s p).workers = s.workers)
    ∧ (∃ t, top_up ws n pids k = ws ++ t)
    ∧ (kill_workers s).2 = s := by
  refine ⟨fun h => ?_, fun h => ?_, top_up_extends ws n pids k, rfl⟩
  · simp [top_up_step, h]
  · simp [top_up_step, Nat.not_lt.mpr h]

/-- Witness for C7: a fork below target appends, at target the list is
untouched, the loop extends the list, and shutdown leaves it unchanged. -/
theorem C7_worker_records_witness :
    (top_up_step sampleState 7).workers = [] ++ [7]
      ∧ (top_up_step { sampleState with workers := [7] } 9).workers = [7]
      ∧ (∃ t, top_up [7] 1 (fun _ => 9) 0 = [7] ++ t)
      ∧ (kill_workers { sampleState with workers := [7] }).2
          = { sampleState with workers := [7] } :=
  ⟨(C7_worker_records sampleState 7 [7] 1 (fun _ => 9) 0).1 (by decide),
   (C7_worker_records { sampleState with workers := [7] } 9 [7] 1
      (fun _ => 9) 0).2.1 (by decide),
   (C7_worker_records sampleState 7 [7] 1 (fun _ => 9) 0).2.2.1,
   (C7_worker_records { sampleState with workers := [7] } 9 [7] 1
      (fun _ => 9) 0).2.2.2⟩

/-- Claim C8: with its default arguments, listener creation makes the
socket non-blocking, disables Nagle coalescing, enables address reuse,
then binds to localhost:8080 and listens with backlog 512, in that order;
and a bind failure propagates through `_create_socket` and `__init__`
without ever reaching `listen`, so no server instance starts serving. -/
theorem C8_create_socket (host : String) (port backlog fd wc : Nat)
    (e : SocketError) :
    create_socket default_host default_port default_backlog (.ok ()) fd
        = ([.setblocking false,
            .setsockopt IPPROTO_TCP TCP_NODELAY 1,
            .setsockopt SOL_SOCKET SO_REUSEADDR 1,
            .bindAddr "localhost" 8080,
            .listenCall 512], .ok fd)
      ∧ (create_socket host port backlog (.error e) fd).2 = .error e
      ∧ (∀ b, SockEvent.listenCall b ∉ (create_socket host port backlog (.error e) fd).1)
      ∧ (server_init wc port (.error e) fd).2 = .error e := by
  refine ⟨rfl, rfl, fun b => ?_, rfl⟩
  simp [create_socket]

/-- Claim C9: every wait in the worker's waiting state is a select call
with a 1-second timeout; each not-ready outcome re-enters the wait with
one more select call; the loop breaks out exactly when some call reported
readiness; and an accept attempt happens only in an iteration whose wait
loop reported readiness — never without it. -/
theorem C9_waiting (s : ServerState) (o : AcceptOracle) (outs rest : List Bool) :
    (∀ c ∈ (wait_loop outs).1, c = ⟨1⟩)
      ∧ wait_loop (false :: rest)
          = (⟨1⟩ :: (wait_loop rest).1, (wait_loop rest).2)
      ∧ ((wait_loop outs).2 = true ↔ true ∈ outs)
      ∧ (worker_iteration s outs o ≠ none → true ∈ outs) := by
  refine ⟨wait_loop_timeouts outs, rfl, wait_loop_breaks_iff outs, fun h => ?_⟩
  rw [← wait_loop_breaks_iff]
  by_contra hb
  simp only [Bool.not_eq_true] at hb
  exact h (by simp [worker_iteration, hb])

/-- Witness for C9 on the outcome sequence [false, true]: one timeout
expiry, then readiness, then the accept attempt is reached. -/
theorem C9_waiting_witness :
    (∀ c ∈ (wait_loop [false, true]).1, c = ⟨1⟩)
      ∧ wait_loop [false, true]
          = (⟨1⟩ :: (wait_loop [true]).1, (wait_loop [true]).2)
      ∧ ((wait_loop [false, true]).2 = true ↔ true ∈ [false, true])
      ∧ (worker_iteration sampleState [false, true] ⟨.error ⟨EAGAIN⟩⟩ ≠ none
          → true ∈ [false, true]) :=
  C9_waiting sampleState ⟨.error ⟨EAGAIN⟩⟩ [false, true] [true]

/-- Claim C10: the worker's EAGAIN handling covers `_handle_request` too:
a `socket.error` with errno EAGAIN raised by the read or by the write of
an accepted connection is swallowed, the worker goes back to waiting, the
connection is never closed, and the server state is untouched. -/
theorem C10_eagain_in_handling (s : ServerState) (e : SocketError) (d : String)
    (h : e.errno = EAGAIN) :
    (worker_try_step s ⟨.ok ⟨.error e, .ok ()⟩⟩).2.2 = .backToWaiting
      ∧ ConnEvent.close ∉ (worker_try_step s ⟨.ok ⟨.error e, .ok ()⟩⟩).2.1
      ∧ (worker_try_step s ⟨.ok ⟨.ok d, .error e⟩⟩).2.2 = .backToWaiting
      ∧ ConnEvent.close ∉ (worker_try_step s ⟨.ok ⟨.ok d, .error e⟩⟩).2.1
      ∧ (worker_try_step s ⟨.ok ⟨.error e, .ok ()⟩⟩).1 = s := by
  obtain ⟨n⟩ := e
  simp only [SocketError.mk.injEq] at h
  subst h
  refine ⟨?_, ?_, ?_, ?_, ?_⟩ <;>
    simp [worker_try_step, handle_request]

/-- Witness for C10 at errno EAGAIN with an empty read. -/
theorem C10_eagain_in_handling_witness :
    (worker_try_step sampleState ⟨.ok ⟨.error ⟨EAGAIN⟩, .ok ()⟩⟩).2.2 = .backToWaiting
      ∧ ConnEvent.close ∉ (worker_try_step sampleState ⟨.ok ⟨.error ⟨EAGAIN⟩, .ok ()⟩⟩).2.1
      ∧ (worker_try_step sampleState ⟨.ok ⟨.ok "", .error ⟨EAGAIN⟩⟩⟩).2.2 = .backToWaiting
      ∧ ConnEvent.close ∉ (worker_try_step sampleState ⟨.ok ⟨.ok "", .error ⟨EAGAIN⟩⟩⟩).2.1
      ∧ (worker_try_step sampleState ⟨.ok ⟨.error ⟨EAGAIN⟩, .ok ()⟩⟩).1 = sampleState :=
  C10_eagain_in_handling sampleState ⟨EAGAIN⟩ "" rfl

end Narwhal
